import Mathlib

/-!
Shallow embedding of `glassnode_util.py` (a Glassnode API client):
configuration lookup, the shared HTTP request routine, and the per-metric
methods that validate symbol/interval arguments and reshape JSON
array-of-objects responses into data-frame tables.

The HTTP transport is abstracted: each per-metric method receives the
`HttpResponse` (status code and decoded JSON body) that the GET request
would observe, and the embedding records whether the request was issued
and whether the date-parse failure handler printed a log line.
-/

/-- A civil UTC date-time, as produced by `pd.to_datetime(..., unit='s')`. -/
structure CivilDateTime where
  year : Int
  month : Int
  day : Int
  hour : Int
  minute : Int
  second : Int
deriving DecidableEq, Repr

/-- A JSON-ish value as it appears in Glassnode responses and the resulting
data-frame cells: numbers, strings, one level of nested numeric object
(the OHLC `o` field), and the date-time values created by
`pd.to_datetime`. -/
inductive GValue where
  | num (q : ℚ)
  | str (s : String)
  | obj (fields : List (String × ℚ))
  | dt (d : CivilDateTime)
deriving DecidableEq, Repr

/-- A decoded JSON object: an insertion-ordered association list, as Python
dicts preserve key insertion order. -/
abbrev GRecord := List (String × GValue)

/-- Error taxonomy of the client, following the exceptions the Python code
raises: `ValueError` from validation (carrying the list of permitted values
that the message names), `Exception('symbol can not be empty')`,
`RuntimeError` on HTTP 400, `ValueError` on HTTP 404, `ValueError` from
`load_config`, pandas `KeyError` on a missing column, pandas length-mismatch
on `df.columns` assignment, and `TypeError` from the dict-union on a
non-object `o` field. -/
inductive GError where
  | invalidArgument (named : List String)
  | emptySymbol
  | badRequest
  | notFound
  | configKeyMissing (key : String)
  | keyError (k : String)
  | lengthMismatch
  | typeError
deriving DecidableEq, Repr

/-- Days-to-civil-date conversion (proleptic Gregorian, epoch 1970-01-01),
the standard era-based algorithm with truncating integer division. -/
def civilFromDays (z0 : Int) : Int × Int × Int :=
  let z := z0 + 719468
  let era : Int := (if 0 ≤ z then z else z - 146096) / 146097
  let doe : Int := z - era * 146097
  let yoe : Int := (doe - doe / 1460 + doe / 36524 - doe / 146096) / 365
  let y : Int := yoe + era * 400
  let doy : Int := doe - (365 * yoe + yoe / 4 - yoe / 100)
  let mp : Int := (5 * doy + 2) / 153
  let d : Int := doy - (153 * mp + 2) / 5 + 1
  let m : Int := mp + (if mp < 10 then 3 else -9)
  ((if m ≤ 2 then y + 1 else y), m, d)

/-- Civil-date-to-days conversion, inverse of `civilFromDays`. -/
def daysFromCivil (y0 m d : Int) : Int :=
  let y := if m ≤ 2 then y0 - 1 else y0
  let era : Int := (if 0 ≤ y then y else y - 399) / 400
  let yoe : Int := y - era * 400
  let mp : Int := if 2 < m then m - 3 else m + 9
  let doy : Int := (153 * mp + 2) / 5 + d - 1
  let doe : Int := yoe * 365 + yoe / 4 - yoe / 100 + doy
  era * 146097 + doe - 719468

/-- Model of `pd.to_datetime(t, unit='s')`: unix seconds to a UTC civil date-time. -/
def unixToUTC (t : Int) : CivilDateTime :=
  let days := t.fdiv 86400
  let sod := t.fmod 86400
  let c := civilFromDays days
  ⟨c.1, c.2.1, c.2.2, sod / 3600, (sod % 3600) / 60, sod % 60⟩

def isLeap (y : Int) : Bool := y % 4 = 0 && (y % 100 ≠ 0 || y % 400 = 0)

def daysInMonth (y m : Int) : Int :=
  if m = 2 then (if isLeap y then 29 else 28)
  else if m = 4 ∨ m = 6 ∨ m = 9 ∨ m = 11 then 30
  else 31

/-- Split a character list on the dash separator, like `s.split('-')`. -/
def splitOnDash : List Char → List (List Char)
  | [] => [[]]
  | c :: cs =>
    let r := splitOnDash cs
    if c = '-' then [] :: r
    else (c :: r.headD []) :: r.tail

/-- Value of a decimal digit character. -/
def digitVal (c : Char) : Option Nat :=
  let n := c.toNat
  if 48 ≤ n ∧ n ≤ 57 then some (n - 48) else none

/-- Parse a nonempty all-digit character list as a natural number. -/
def parseDigits : List Char → Option Nat
  | [] => none
  | cs => cs.foldl (fun acc c =>
      match acc, digitVal c with
      | some a, some d => some (a * 10 + d)
      | _, _ => none) (some 0)

/-- Model of `GlassnodeConsumer.string_to_unix_timestamp`: `strptime(s, '%Y-%m-%d')`
followed by `datetime.timestamp`; `none` models the `ValueError` raised on a
malformed date string.  The source converts through the host-local timezone;
the embedding uses UTC (offset zero), which no claim depends on. -/
def string_to_unix_timestamp (s : String) : Option Int :=
  match splitOnDash s.data with
  | [ys, ms, ds] =>
    match parseDigits ys, parseDigits ms, parseDigits ds with
    | some y, some m, some d =>
      if 1 ≤ m ∧ m ≤ 12 ∧ 1 ≤ d ∧ (d : Int) ≤ daysInMonth y m then
        some (daysFromCivil y m d * 86400)
      else none
    | _, _, _ => none
  | _ => none

/-- Key list of a record sequence in order of first appearance: the column
order `pd.DataFrame(list_of_dicts)` infers. -/
def firstAppearance (ks : List String) : List String :=
  ks.foldl (fun acc k => if k ∈ acc then acc else acc ++ [k]) []

/-- A pandas data frame: named columns in order, each a list of cells
(`none` models a missing value / NaN). -/
structure Df where
  cols : List (String × List (Option GValue))
deriving DecidableEq, Repr

/-- Model of `pd.DataFrame(records)`: columns are the keys in order of first
appearance; each row's values are aligned to columns BY KEY, a missing key
yielding NaN. -/
def Df.ofRecords (recs : List GRecord) : Df :=
  let ks := firstAppearance (recs.flatMap (fun r => r.map Prod.fst))
  ⟨ks.map (fun k => (k, recs.map (fun r => r.lookup k)))⟩

/-- Model of `df[name]`: read a column, pandas `KeyError` when absent. -/
def Df.getColE (df : Df) (name : String) : Except GError (List (Option GValue)) :=
  match df.cols.lookup name with
  | some c => .ok c
  | none => .error (.keyError name)

/-- Model of `df[name] = vals`: replace the column when present, append otherwise. -/
def Df.setCol (df : Df) (name : String) (vals : List (Option GValue)) : Df :=
  if (df.cols.lookup name).isSome then
    ⟨df.cols.map (fun c => if c.1 = name then (c.1, vals) else c)⟩
  else
    ⟨df.cols ++ [(name, vals)]⟩

/-- Model of `df.columns = names`: positional rename; pandas raises a length-mismatch
`ValueError` when the counts differ. -/
def Df.setColumns (df : Df) (names : List String) : Except GError Df :=
  if names.length = df.cols.length then
    .ok ⟨names.zip (df.cols.map Prod.snd)⟩
  else .error .lengthMismatch

/-- Model of `df[[names]]`: select and reorder columns by name. -/
def Df.select (df : Df) (names : List String) : Except GError Df := do
  let cs ← names.mapM (fun k =>
    match df.cols.lookup k with
    | some v => Except.ok (k, v)
    | none => Except.error (GError.keyError k))
  return ⟨cs⟩

/-- One cell of `pd.to_datetime(col, unit='s')`: numeric unix seconds become
a UTC date-time, NaN stays NaT; non-numeric cells do not occur in API
responses and pass through unchanged. -/
def toDatetimeCell : Option GValue → Option GValue
  | some (.num q) => some (.dt (unixToUTC ⌊q⌋))
  | c => c

deriving instance DecidableEq for Except

/-- An HTTP response as the GET in `get_api_request` observes it: status
code and decoded JSON body (an array of points). -/
structure HttpResponse where
  status : Nat
  body : List GRecord
deriving DecidableEq, Repr

/-- Timestamp query parameter: the unparsed string when conversion failed
(or was skipped), the unix timestamp when it succeeded. -/
abbrev DateParam := String ⊕ Int

/-- Outcome of `GlassnodeConsumer.get_api_request`: whether the GET was
issued, whether the date-parse failure handler printed, the `s`/`u` query
parameters actually sent, and the returned JSON (or raised error). -/
structure ApiOutcome where
  requested : Bool
  logged : Bool
  sParam : DateParam
  uParam : DateParam
  result : Except GError (List GRecord)
deriving DecidableEq, Repr

/-- The `try`/`except ValueError` block around the two
`string_to_unix_timestamp` calls: the first failing conversion raises,
leaving later variables unconverted; the handler passes silently when the
current `from_date` value or `to_date` equals `''`, and prints otherwise. -/
def tryParseDates (from_date to_date : String) : DateParam × DateParam × Bool :=
  match string_to_unix_timestamp from_date with
  | none =>
    (.inl from_date, .inl to_date,
      if from_date = "" ∨ to_date = "" then false else true)
  | some n =>
    match string_to_unix_timestamp to_date with
    | none =>
      (.inr n, .inl to_date, if to_date = "" then false else true)
    | some m => (.inr n, .inr m, false)

/-- Status classification at the end of `get_api_request`: 400 raises
`RuntimeError`, 404 raises `ValueError`, anything else returns `x.json()`
unchanged. -/
def classifyResponse (resp : HttpResponse) : Except GError (List GRecord) :=
  if resp.status = 400 then .error .badRequest
  else if resp.status = 404 then .error .notFound
  else .ok resp.body

/-- Model of `GlassnodeConsumer.get_api_request`: reject an empty symbol, attempt the
date conversions (failures never abort), then issue the GET with
`s`/`u` set to the (possibly unconverted) date values and classify the
response status. -/
def get_api_request (from_date to_date symbol interval category topic : String)
    (resp : HttpResponse) : ApiOutcome :=
  if symbol = "" then
    ⟨false, false, .inl from_date, .inl to_date, .error .emptySymbol⟩
  else
    let p := tryParseDates from_date to_date
    ⟨true, p.2.2, p.1, p.2.1, classifyResponse resp⟩

/-- Python list slice `l[a:b]`. -/
def pySlice (l : List String) (a b : Nat) : List String := (l.take b).drop a

/-- Model of `GlassnodeConsumer.supported_type`. -/
def supported_type : List String :=
  ["BTC", "ETH", "LTC", "AAVE", "ABT", "AMPL", "ANT", "ARMOR", "BADGER", "BAL",
   "BAND", "BAT", "BIX", "BNT", "BOND", "BRD", "BUSD", "BZRX", "CELR", "CHSB",
   "CND", "COMP", "CREAM", "CRO", "CRV", "CVC", "CVP", "DAI", "DDX", "DENT", "DGX",
   "DHT", "DMG", "DODO", "DOUGH", "DRGN", "ELF", "ENG", "ENJ", "EURS", "FET", "FTT",
   "FUN", "GNO", "GUSD", "HEGIC", "HOT", "HPT", "HT", "HUSD", "INDEX", "KCS", "LAMB",
   "LBA", "LDO", "LEO", "LINK", "LOOM", "LRC", "MANA", "MATIC", "MCB", "MCO", "MFT",
   "MIR", "MKR", "MLN", "MTA", "MTL", "MX", "NDX", "NEXO", "NFTX", "NMR", "Nsure",
   "OCEAN", "OKB", "OMG", "PAY", "PERP", "PICKLE", "PNK", "PNT", "POLY", "POWR", "PPT",
   "QASH", "QKC", "QNT", "RDN", "REN", "REP", "RLC", "ROOK", "RPL", "RSR", "SAI", "SAN",
   "SNT", "SNX", "STAKE", "STORJ", "sUSD", "SUSHI", "TEL", "TOP", "UBT", "UMA", "UNI",
   "USDC", "USDK", "USDP", "USDT", "UTK", "VERI", "WaBi", "WAX", "WBTC", "WETH", "wNXM",
   "WTC", "YAM", "YFI", "ZRX"]

/-- Model of `GlassnodeConsumer.supported_interval`. -/
def supported_interval : List String := ["", "24h", "1h", "10m", "1w", "1month"]

/-- Outcome of a per-metric method: whether the network request was issued,
and the returned data frame or raised error. -/
structure MethodOutcome where
  networkCalled : Bool
  result : Except GError Df
deriving DecidableEq, Repr

/-- The shared tail of every scalar-metric method:
`df = pd.DataFrame(json_object); df['t'] = pd.to_datetime(df['t'], unit='s');
df.columns = names`. -/
def scalarReshape (json_object : List GRecord) (names : List String) :
    Except GError Df := do
  let df := Df.ofRecords json_object
  let tcol ← df.getColE "t"
  let df := df.setCol "t" (tcol.map toDatetimeCell)
  df.setColumns names

/-- Model of `load_config` (minus file I/O and JSON decoding, delegated in the
source): return the value at `key`, raising `ValueError` when absent. -/
def load_config (config_json : List (String × GValue)) (key : String) :
    Except GError GValue :=
  match config_json.lookup key with
  | some v => .ok v
  | none => .error (.configKeyMissing key)

/-- Model of `GlassnodeConsumer.get_close_price`. -/
def get_close_price (symbol from_date to_date interval : String)
    (resp : HttpResponse) : MethodOutcome :=
  if symbol ∉ supported_type then
    ⟨false, .error (.invalidArgument supported_type)⟩
  else if interval ∉ supported_interval then
    ⟨false, .error (.invalidArgument (supported_interval.drop 1))⟩
  else
    let api := get_api_request from_date to_date symbol interval "market" "price_usd_close" resp
    ⟨api.requested, do
      let json_object ← api.result
      scalarReshape json_object ["datetime", "close_price"]⟩

/-- The dict union `{'t': data['t']} | data['o']` of `get_ohlc`: keys of the
left dict first (values overridden by the right), then new right keys in
order; a non-object right operand raises `TypeError`. -/
def flattenOhlcPoint (data : GRecord) : Except GError GRecord := do
  let t ← match data.lookup "t" with
    | some v => Except.ok v
    | none => Except.error (GError.keyError "t")
  let o ← match data.lookup "o" with
    | some v => Except.ok v
    | none => Except.error (GError.keyError "o")
  match o with
  | .obj fields =>
    let r2 : GRecord := fields.map (fun p => (p.1, GValue.num p.2))
    let r1 : GRecord := [("t", t)]
    return (r1.map (fun c => (c.1, ((r2.lookup c.1).getD c.2))) ++
      r2.filter (fun c => (r1.lookup c.1).isNone))
  | _ => .error .typeError

/-- Model of `GlassnodeConsumer.get_ohlc`. -/
def get_ohlc (symbol from_date to_date interval : String)
    (resp : HttpResponse) : MethodOutcome :=
  if symbol ∉ supported_type then
    ⟨false, .error (.invalidArgument supported_type)⟩
  else if interval ∉ pySlice supported_interval 0 3 then
    ⟨false, .error (.invalidArgument (pySlice supported_interval 0 3))⟩
  else
    let api := get_api_request from_date to_date symbol interval "market" "price_usd_ohlc" resp
    ⟨api.requested, do
      let json_object ← api.result
      let flat ← json_object.mapM flattenOhlcPoint
      let df := Df.ofRecords flat
      let tcol ← df.getColE "t"
      let df := df.setCol "t" (tcol.map toDatetimeCell)
      let df ← df.setColumns ["datetime", "close", "high", "low", "open"]
      df.select ["datetime", "open", "high", "low", "close"]⟩

/-- Model of `GlassnodeConsumer.get_exchange_netflow` (the extra `e` parameter only
joins the query string and is irrelevant to the observable outcome here). -/
def get_exchange_netflow (symbol from_date to_date interval : String)
    (resp : HttpResponse) (exchange : String := "aggregated") : MethodOutcome :=
  if symbol ∉ supported_type then
    ⟨false, .error (.invalidArgument supported_type)⟩
  else if interval ∉ pySlice supported_interval 0 3 then
    ⟨false, .error (.invalidArgument (pySlice supported_interval 0 3))⟩
  else
    let api := get_api_request from_date to_date symbol interval "transactions" "transfers_volume_exchanges_net" resp
    ⟨api.requested, do
      let json_object ← api.result
      scalarReshape json_object ["datetime", "volume"]⟩

/-- Model of `GlassnodeConsumer.get_issuance`. -/
def get_issuance (symbol from_date to_date interval : String)
    (resp : HttpResponse) : MethodOutcome :=
  if symbol ∉ ["BTC", "ETH"] then
    ⟨false, .error (.invalidArgument ["BTC", "ETH"])⟩
  else if interval ∉ pySlice supported_interval 0 3 then
    ⟨false, .error (.invalidArgument (pySlice supported_interval 1 3))⟩
  else
    let api := get_api_request from_date to_date symbol interval "supply" "issued" resp
    ⟨api.requested, do
      let json_object ← api.result
      scalarReshape json_object ["datetime", "issued"]⟩

/-- Model of `GlassnodeConsumer.get_inflation_rate`. -/
def get_inflation_rate (symbol from_date to_date interval : String)
    (resp : HttpResponse) : MethodOutcome :=
  if symbol ∉ ["BTC", "ETH"] then
    ⟨false, .error (.invalidArgument ["BTC", "ETH"])⟩
  else if interval ∉ pySlice supported_interval 0 3 then
    ⟨false, .error (.invalidArgument (pySlice supported_interval 1 3))⟩
  else
    let api := get_api_request from_date to_date symbol interval "supply" "inflation_rate" resp
    ⟨api.requested, do
      let json_object ← api.result
      scalarReshape json_object ["datetime", "inflation_rate"]⟩

/-- Model of `GlassnodeConsumer.get_puell_multiple`. -/
def get_puell_multiple (symbol from_date to_date interval : String)
    (resp : HttpResponse) : MethodOutcome :=
  if symbol ∉ ["BTC", "LTC"] then
    ⟨false, .error (.invalidArgument ["BTC", "LTC"])⟩
  else if interval ∉ pySlice supported_interval 0 2 then
    ⟨false, .error (.invalidArgument (pySlice supported_interval 1 2))⟩
  else
    let api := get_api_request from_date to_date symbol interval "indicators" "puell_multiple" resp
    ⟨api.requested, do
      let json_object ← api.result
      scalarReshape json_object ["datetime", "puell_multiple"]⟩

/-- Model of `GlassnodeConsumer.get_total_fees`. -/
def get_total_fees (symbol from_date to_date interval : String)
    (resp : HttpResponse) : MethodOutcome :=
  if symbol ∉ ["BTC", "ETH", "LTC"] then
    ⟨false, .error (.invalidArgument ["BTC", "ETH", "LTC"])⟩
  else if interval ∉ supported_interval then
    ⟨false, .error (.invalidArgument supported_interval)⟩
  else
    let api := get_api_request from_date to_date symbol interval "fees" "volume_sum" resp
    ⟨api.requested, do
      let json_object ← api.result
      scalarReshape json_object ["datetime", "total_fees"]⟩

/-- A symbol drawn from a whitelist that does not contain the empty string
is nonempty. -/
theorem mem_ne_empty {l : List String} (hl : "" ∉ l) {sym : String}
    (h : sym ∈ l) : ¬ sym = "" :=
  fun he => hl (he ▸ h)

/-- Parsing the empty date string fails, as `strptime('', '%Y-%m-%d')`
raises `ValueError`. -/
theorem parse_empty_none : string_to_unix_timestamp "" = none := rfl

/-- With a nonempty symbol the shared routine always issues the GET and
returns the classified response. -/
theorem get_api_request_eq (fd td sym itv cat top : String)
    (resp : HttpResponse) (h : ¬ sym = "") :
    get_api_request fd td sym itv cat top resp =
      ⟨true, (tryParseDates fd td).2.2, (tryParseDates fd td).1,
       (tryParseDates fd td).2.1, classifyResponse resp⟩ := by
  simp [get_api_request, h]

/-- With valid arguments `get_close_price` passes the classified response
to the scalar reshape. -/
theorem get_close_price_valid (sym fd td itv : String) (resp : HttpResponse)
    (hs : sym ∈ supported_type) (hi : itv ∈ supported_interval) :
    (get_close_price sym fd td itv resp).result =
      (do
        let json_object ← classifyResponse resp
        scalarReshape json_object ["datetime", "close_price"]) := by
  have hne : ¬ sym = "" := mem_ne_empty (by decide) hs
  simp [get_close_price, hs, hi, get_api_request, hne]

/-- With valid arguments `get_ohlc` passes the classified response to the
flatten/rename/reorder pipeline. -/
theorem get_ohlc_valid (sym fd td itv : String) (resp : HttpResponse)
    (hs : sym ∈ supported_type) (hi : itv ∈ pySlice supported_interval 0 3) :
    (get_ohlc sym fd td itv resp).result =
      (do
        let json_object ← classifyResponse resp
        let flat ← json_object.mapM flattenOhlcPoint
        let df := Df.ofRecords flat
        let tcol ← df.getColE "t"
        let df := df.setCol "t" (tcol.map toDatetimeCell)
        let df ← df.setColumns ["datetime", "close", "high", "low", "open"]
        df.select ["datetime", "open", "high", "low", "close"]) := by
  have hne : ¬ sym = "" := mem_ne_empty (by decide) hs
  simp [get_ohlc, hs, hi, get_api_request, hne]

/-- With valid arguments `get_exchange_netflow` passes the classified
response to the scalar reshape. -/
theorem get_exchange_netflow_valid (sym fd td itv : String) (resp : HttpResponse)
    (hs : sym ∈ supported_type) (hi : itv ∈ pySlice supported_interval 0 3) :
    (get_exchange_netflow sym fd td itv resp).result =
      (do
        let json_object ← classifyResponse resp
        scalarReshape json_object ["datetime", "volume"]) := by
  have hne : ¬ sym = "" := mem_ne_empty (by decide) hs
  simp [get_exchange_netflow, hs, hi, get_api_request, hne]

/-- With valid arguments `get_issuance` passes the classified response to
the scalar reshape. -/
theorem get_issuance_valid (sym fd td itv : String) (resp : HttpResponse)
    (hs : sym ∈ ["BTC", "ETH"]) (hi : itv ∈ pySlice supported_interval 0 3) :
    (get_issuance sym fd td itv resp).result =
      (do
        let json_object ← classifyResponse resp
        scalarReshape json_object ["datetime", "issued"]) := by
  have hne : ¬ sym = "" := mem_ne_empty (by decide) hs
  simp [get_issuance, hs, hi, get_api_request, hne]

/-- With valid arguments `get_inflation_rate` passes the classified
response to the scalar reshape. -/
theorem get_inflation_rate_valid (sym fd td itv : String) (resp : HttpResponse)
    (hs : sym ∈ ["BTC", "ETH"]) (hi : itv ∈ pySlice supported_interval 0 3) :
    (get_inflation_rate sym fd td itv resp).result =
      (do
        let json_object ← classifyResponse resp
        scalarReshape json_object ["datetime", "inflation_rate"]) := by
  have hne : ¬ sym = "" := mem_ne_empty (by decide) hs
  simp [get_inflation_rate, hs, hi, get_api_request, hne]

/-- With valid arguments `get_puell_multiple` passes the classified
response to the scalar reshape. -/
theorem get_puell_multiple_valid (sym fd td itv : String) (resp : HttpResponse)
    (hs : sym ∈ ["BTC", "LTC"]) (hi : itv ∈ pySlice supported_interval 0 2) :
    (get_puell_multiple sym fd td itv resp).result =
      (do
        let json_object ← classifyResponse resp
        scalarReshape json_object ["datetime", "puell_multiple"]) := by
  have hne : ¬ sym = "" := mem_ne_empty (by decide) hs
  simp [get_puell_multiple, hs, hi, get_api_request, hne]

/-- With valid arguments `get_total_fees` passes the classified response to
the scalar reshape. -/
theorem get_total_fees_valid (sym fd td itv : String) (resp : HttpResponse)
    (hs : sym ∈ ["BTC", "ETH", "LTC"]) (hi : itv ∈ supported_interval) :
    (get_total_fees sym fd td itv resp).result =
      (do
        let json_object ← classifyResponse resp
        scalarReshape json_object ["datetime", "total_fees"]) := by
  have hne : ¬ sym = "" := mem_ne_empty (by decide) hs
  simp [get_total_fees, hs, hi, get_api_request, hne]

/-- C1: for every per-metric method and every symbol not in that method's
whitelist, the call fails with `InvalidArgument` (a `ValueError` naming the
whitelist) before any network call is attempted; in particular
`get_issuance` with symbol `LTC` fails because its whitelist is
`{BTC, ETH}`. -/
theorem spec_C1_symbol_whitelist (sym fd td itv : String) (resp : HttpResponse) :
    (sym ∉ supported_type →
      get_close_price sym fd td itv resp
          = ⟨false, .error (.invalidArgument supported_type)⟩ ∧
      get_ohlc sym fd td itv resp
          = ⟨false, .error (.invalidArgument supported_type)⟩ ∧
      get_exchange_netflow sym fd td itv resp
          = ⟨false, .error (.invalidArgument supported_type)⟩) ∧
    (sym ∉ ["BTC", "ETH"] →
      get_issuance sym fd td itv resp
          = ⟨false, .error (.invalidArgument ["BTC", "ETH"])⟩ ∧
      get_inflation_rate sym fd td itv resp
          = ⟨false, .error (.invalidArgument ["BTC", "ETH"])⟩) ∧
    (sym ∉ ["BTC", "LTC"] →
      get_puell_multiple sym fd td itv resp
          = ⟨false, .error (.invalidArgument ["BTC", "LTC"])⟩) ∧
    (sym ∉ ["BTC", "ETH", "LTC"] →
      get_total_fees sym fd td itv resp
          = ⟨false, .error (.invalidArgument ["BTC", "ETH", "LTC"])⟩) ∧
    get_issuance "LTC" fd td itv resp
        = ⟨false, .error (.invalidArgument ["BTC", "ETH"])⟩ := by
  refine ⟨fun h => ⟨?_, ?_, ?_⟩, fun h => ⟨?_, ?_⟩, fun h => ?_, fun h => ?_, ?_⟩
  · simp [get_close_price, h]
  · simp [get_ohlc, h]
  · simp [get_exchange_netflow, h]
  · simp [get_issuance, h]
  · simp [get_inflation_rate, h]
  · simp [get_puell_multiple, h]
  · simp [get_total_fees, h]
  · simp [get_issuance, (by decide : ("LTC" : String) ∉ ["BTC", "ETH"])]

/-- Witness for C1 at `get_issuance "LTC"` and at an unlisted symbol for
`get_close_price`. -/
theorem spec_C1_symbol_whitelist_witness :
    get_issuance "LTC" "" "" "" ⟨200, []⟩
        = ⟨false, .error (.invalidArgument ["BTC", "ETH"])⟩ ∧
    get_close_price "DOGE" "" "" "" ⟨200, []⟩
        = ⟨false, .error (.invalidArgument supported_type)⟩ :=
  ⟨(spec_C1_symbol_whitelist "LTC" "" "" "" ⟨200, []⟩).2.2.2.2,
   ((spec_C1_symbol_whitelist "DOGE" "" "" "" ⟨200, []⟩).1 (by decide)).1⟩

/-- C5: for every per-metric method and every interval outside that
method's permitted prefix of the ordered interval list, the call fails with
`InvalidArgument`: the prefix is `intervals[0:2]` for `get_puell_multiple`,
`intervals[0:3]` for `get_ohlc`, `get_exchange_netflow`, `get_issuance` and
`get_inflation_rate`, and all six intervals for `get_close_price` and
`get_total_fees`. -/
theorem spec_C5_interval_whitelist (sym fd td itv : String) (resp : HttpResponse) :
    (itv ∉ supported_interval →
      (∃ a, (get_close_price sym fd td itv resp).result
          = .error (.invalidArgument a)) ∧
      (∃ a, (get_total_fees sym fd td itv resp).result
          = .error (.invalidArgument a))) ∧
    (itv ∉ pySlice supported_interval 0 3 →
      (∃ a, (get_ohlc sym fd td itv resp).result
          = .error (.invalidArgument a)) ∧
      (∃ a, (get_exchange_netflow sym fd td itv resp).result
          = .error (.invalidArgument a)) ∧
      (∃ a, (get_issuance sym fd td itv resp).result
          = .error (.invalidArgument a)) ∧
      (∃ a, (get_inflation_rate sym fd td itv resp).result
          = .error (.invalidArgument a))) ∧
    (itv ∉ pySlice supported_interval 0 2 →
      ∃ a, (get_puell_multiple sym fd td itv resp).result
          = .error (.invalidArgument a)) := by
  refine ⟨fun h => ⟨?_, ?_⟩, fun h => ⟨?_, ?_, ?_, ?_⟩, fun h => ?_⟩
  · by_cases hs : sym ∈ supported_type
    · exact ⟨supported_interval.drop 1, by simp [get_close_price, hs, h]⟩
    · exact ⟨supported_type, by simp [get_close_price, hs]⟩
  · by_cases hs : sym ∈ ["BTC", "ETH", "LTC"]
    · exact ⟨supported_interval, by simp [get_total_fees, hs, h]⟩
    · exact ⟨["BTC", "ETH", "LTC"], by simp [get_total_fees, hs]⟩
  · by_cases hs : sym ∈ supported_type
    · exact ⟨pySlice supported_interval 0 3, by simp [get_ohlc, hs, h]⟩
    · exact ⟨supported_type, by simp [get_ohlc, hs]⟩
  · by_cases hs : sym ∈ supported_type
    · exact ⟨pySlice supported_interval 0 3, by simp [get_exchange_netflow, hs, h]⟩
    · exact ⟨supported_type, by simp [get_exchange_netflow, hs]⟩
  · by_cases hs : sym ∈ ["BTC", "ETH"]
    · exact ⟨pySlice supported_interval 1 3, by simp [get_issuance, hs, h]⟩
    · exact ⟨["BTC", "ETH"], by simp [get_issuance, hs]⟩
  · by_cases hs : sym ∈ ["BTC", "ETH"]
    · exact ⟨pySlice supported_interval 1 3, by simp [get_inflation_rate, hs, h]⟩
    · exact ⟨["BTC", "ETH"], by simp [get_inflation_rate, hs]⟩
  · by_cases hs : sym ∈ ["BTC", "LTC"]
    · exact ⟨pySlice supported_interval 1 2, by simp [get_puell_multiple, hs, h]⟩
    · exact ⟨["BTC", "LTC"], by simp [get_puell_multiple, hs]⟩

/-- Witness for C5 at `get_puell_multiple` with the disallowed `1h` and at
`get_close_price` with an interval outside the full list. -/
theorem spec_C5_interval_whitelist_witness :
    (∃ a, (get_puell_multiple "BTC" "" "" "1h" ⟨200, []⟩).result
        = .error (.invalidArgument a)) ∧
    (∃ a, (get_close_price "BTC" "" "" "7d" ⟨200, []⟩).result
        = .error (.invalidArgument a)) :=
  ⟨(spec_C5_interval_whitelist "BTC" "" "" "1h" ⟨200, []⟩).2.2 (by decide),
   ((spec_C5_interval_whitelist "BTC" "" "" "7d" ⟨200, []⟩).1 (by decide)).1⟩

/-- C7 counterexample: `get_close_price` with a valid symbol and a rejected
interval raises a message naming `supported_interval[1:]`, which is not its
permitted interval set (the full six-element list). -/
theorem spec_C7_counterexample_message :
    (get_close_price "BTC" "" "" "7d" ⟨200, []⟩).result
        = .error (.invalidArgument (supported_interval.drop 1)) ∧
    supported_interval.drop 1 ≠ supported_interval := by
  constructor
  · rfl
  · decide

/-- C7 (amended): validation failures raise `InvalidArgument` whose message
names the full whitelist for a rejected symbol; for a rejected interval the
message names the permitted subset for `get_ohlc`, `get_exchange_netflow`
and `get_total_fees`, but names `intervals[1:]` for `get_close_price`,
`intervals[1:3]` for `get_issuance` and `get_inflation_rate`, and
`intervals[1:2]` for `get_puell_multiple` (each omitting the permitted
empty interval). -/
theorem spec_C7_message_sets (sym fd td itv : String) (resp : HttpResponse) :
    (sym ∉ supported_type →
      (get_close_price sym fd td itv resp).result
          = .error (.invalidArgument supported_type) ∧
      (get_ohlc sym fd td itv resp).result
          = .error (.invalidArgument supported_type) ∧
      (get_exchange_netflow sym fd td itv resp).result
          = .error (.invalidArgument supported_type)) ∧
    (sym ∉ ["BTC", "ETH"] →
      (get_issuance sym fd td itv resp).result
          = .error (.invalidArgument ["BTC", "ETH"]) ∧
      (get_inflation_rate sym fd td itv resp).result
          = .error (.invalidArgument ["BTC", "ETH"])) ∧
    (sym ∉ ["BTC", "LTC"] →
      (get_puell_multiple sym fd td itv resp).result
          = .error (.invalidArgument ["BTC", "LTC"])) ∧
    (sym ∉ ["BTC", "ETH", "LTC"] →
      (get_total_fees sym fd td itv resp).result
          = .error (.invalidArgument ["BTC", "ETH", "LTC"])) ∧
    (sym ∈ supported_type → itv ∉ supported_interval →
      (get_close_price sym fd td itv resp).result
          = .error (.invalidArgument (supported_interval.drop 1))) ∧
    (sym ∈ supported_type → itv ∉ pySlice supported_interval 0 3 →
      (get_ohlc sym fd td itv resp).result
          = .error (.invalidArgument (pySlice supported_interval 0 3)) ∧
      (get_exchange_netflow sym fd td itv resp).result
          = .error (.invalidArgument (pySlice supported_interval 0 3))) ∧
    (sym ∈ ["BTC", "ETH"] → itv ∉ pySlice supported_interval 0 3 →
      (get_issuance sym fd td itv resp).result
          = .error (.invalidArgument (pySlice supported_interval 1 3)) ∧
      (get_inflation_rate sym fd td itv resp).result
          = .error (.invalidArgument (pySlice supported_interval 1 3))) ∧
    (sym ∈ ["BTC", "LTC"] → itv ∉ pySlice supported_interval 0 2 →
      (get_puell_multiple sym fd td itv resp).result
          = .error (.invalidArgument (pySlice supported_interval 1 2))) ∧
    (sym ∈ ["BTC", "ETH", "LTC"] → itv ∉ supported_interval →
      (get_total_fees sym fd td itv resp).result
          = .error (.invalidArgument supported_interval)) := by
  refine ⟨fun h => ⟨?_, ?_, ?_⟩, fun h => ⟨?_, ?_⟩, fun h => ?_, fun h => ?_,
    fun hs h => ?_, fun hs h => ⟨?_, ?_⟩, fun hs h => ⟨?_, ?_⟩,
    fun hs h => ?_, fun hs h => ?_⟩
  · simp [get_close_price, h]
  · simp [get_ohlc, h]
  · simp [get_exchange_netflow, h]
  · simp [get_issuance, h]
  · simp [get_inflation_rate, h]
  · simp [get_puell_multiple, h]
  · simp [get_total_fees, h]
  · simp [get_close_price, hs, h]
  · simp [get_ohlc, hs, h]
  · simp [get_exchange_netflow, hs, h]
  · simp [get_issuance, hs, h]
  · simp [get_inflation_rate, hs, h]
  · simp [get_puell_multiple, hs, h]
  · simp [get_total_fees, hs, h]

/-- Witness for the amended C7 at a rejected symbol and at
`get_close_price` / `get_puell_multiple` with rejected intervals. -/
theorem spec_C7_message_sets_witness :
    (get_issuance "LTC" "" "" "" ⟨200, []⟩).result
        = .error (.invalidArgument ["BTC", "ETH"]) ∧
    (get_close_price "BTC" "" "" "7d" ⟨200, []⟩).result
        = .error (.invalidArgument (supported_interval.drop 1)) ∧
    (get_puell_multiple "BTC" "" "" "1h" ⟨200, []⟩).result
        = .error (.invalidArgument (pySlice supported_interval 1 2)) :=
  ⟨((spec_C7_message_sets "LTC" "" "" "" ⟨200, []⟩).2.1 (by decide)).1,
   (spec_C7_message_sets "BTC" "" "" "7d" ⟨200, []⟩).2.2.2.2.1
      (by decide) (by decide),
   (spec_C7_message_sets "BTC" "" "" "1h" ⟨200, []⟩).2.2.2.2.2.2.2.1
      (by decide) (by decide)⟩

/-- C4: for every HTTP response received by the shared request routine,
status 400 raises `BadRequest`, status 404 raises `NotFound`, and any other
status returns the decoded JSON body unchanged. -/
theorem spec_C4_status_classification (fd td sym itv cat top : String)
    (status : Nat) (body : List GRecord) (hsym : ¬ sym = "") :
    (status = 400 →
      (get_api_request fd td sym itv cat top ⟨status, body⟩).result
          = .error .badRequest) ∧
    (status = 404 →
      (get_api_request fd td sym itv cat top ⟨status, body⟩).result
          = .error .notFound) ∧
    (status ≠ 400 → status ≠ 404 →
      (get_api_request fd td sym itv cat top ⟨status, body⟩).result
          = .ok body) := by
  refine ⟨fun h => ?_, fun h => ?_, fun h1 h2 => ?_⟩
  · subst h; simp [get_api_request, hsym, classifyResponse]
  · subst h; simp [get_api_request, hsym, classifyResponse]
  · simp [get_api_request, hsym, classifyResponse, h1, h2]

/-- Witness for C4 at statuses 400, 404 and 500. -/
theorem spec_C4_status_classification_witness :
    (get_api_request "" "" "BTC" "" "market" "price_usd_close" ⟨400, []⟩).result
        = .error .badRequest ∧
    (get_api_request "" "" "BTC" "" "market" "price_usd_close" ⟨404, []⟩).result
        = .error .notFound ∧
    (get_api_request "" "" "BTC" "" "market" "price_usd_close" ⟨500, []⟩).result
        = .ok [] :=
  ⟨(spec_C4_status_classification "" "" "BTC" "" "market" "price_usd_close"
      400 [] (by decide)).1 rfl,
   (spec_C4_status_classification "" "" "BTC" "" "market" "price_usd_close"
      404 [] (by decide)).2.1 rfl,
   (spec_C4_status_classification "" "" "BTC" "" "market" "price_usd_close"
      500 [] (by decide)).2.2 (by decide) (by decide)⟩

/-- C6 counterexample: with `fromDate='bad'` and `toDate=''` the parse
fails and a date is non-empty, yet nothing is logged (the handler passes
because `to_date` is empty); the request still proceeds. -/
theorem spec_C6_counterexample_silent_failure :
    string_to_unix_timestamp "bad" = none ∧ ¬ ("bad" : String) = "" ∧
    (get_api_request "bad" "" "BTC" "" "market" "price_usd_close"
        ⟨200, []⟩).logged = false ∧
    (get_api_request "bad" "" "BTC" "" "market" "price_usd_close"
        ⟨200, []⟩).requested = true := by
  exact ⟨rfl, by decide, rfl, rfl⟩

/-- C6 (amended): date-parse failures in the shared request routine never
abort the request: the GET is always issued, a date whose parse failed is
sent unparsed (in particular `fromDate=''`/`toDate=''` raise nothing and
are sent as the empty strings), and the failure is logged exactly when it
occurs with BOTH dates non-empty (with either date empty it is silently
ignored). -/
theorem spec_C6_date_parse_never_aborts (fd td sym itv cat top : String)
    (resp : HttpResponse) (hsym : ¬ sym = "") :
    (get_api_request fd td sym itv cat top resp).requested = true ∧
    (string_to_unix_timestamp fd = none →
      (get_api_request fd td sym itv cat top resp).sParam = .inl fd ∧
      (get_api_request fd td sym itv cat top resp).uParam = .inl td) ∧
    (string_to_unix_timestamp td = none →
      (get_api_request fd td sym itv cat top resp).uParam = .inl td) ∧
    ((get_api_request fd td sym itv cat top resp).logged = true ↔
      ((string_to_unix_timestamp fd = none ∨ string_to_unix_timestamp td = none) ∧
        ¬ fd = "" ∧ ¬ td = "")) := by
  rw [get_api_request_eq fd td sym itv cat top resp hsym]
  rcases hf : string_to_unix_timestamp fd with _ | n
  · refine ⟨rfl, fun _ => ⟨by simp [tryParseDates, hf], by simp [tryParseDates, hf]⟩,
      fun _ => by simp [tryParseDates, hf], ?_⟩
    by_cases h1 : fd = "" <;> by_cases h2 : td = "" <;>
      simp [tryParseDates, parse_empty_none, hf, h1, h2]
  · have hfd : ¬ fd = "" := by
      intro he; rw [he, parse_empty_none] at hf; exact Option.noConfusion hf
    rcases ht : string_to_unix_timestamp td with _ | m
    · refine ⟨rfl, fun hc => by simp [hf] at hc,
        fun _ => by simp [tryParseDates, hf, ht], ?_⟩
      by_cases h2 : td = "" <;>
        simp [tryParseDates, parse_empty_none, hf, ht, hfd, h2]
    · refine ⟨rfl, fun hc => by simp [hf] at hc,
        fun hc => by simp [ht] at hc, ?_⟩
      simp [tryParseDates, hf, ht]

/-- Witness for the amended C6 at `fromDate=''`, `toDate=''`. -/
theorem spec_C6_date_parse_never_aborts_witness :
    (get_api_request "" "" "BTC" "" "market" "price_usd_close"
        ⟨200, []⟩).requested = true ∧
    (get_api_request "" "" "BTC" "" "market" "price_usd_close"
        ⟨200, []⟩).sParam = .inl "" ∧
    (get_api_request "" "" "BTC" "" "market" "price_usd_close"
        ⟨200, []⟩).uParam = .inl "" := by
  have h := spec_C6_date_parse_never_aborts "" "" "BTC" "" "market"
    "price_usd_close" ⟨200, []⟩ (by decide)
  exact ⟨h.1, (h.2.1 rfl).1, (h.2.1 rfl).2⟩

/-- C8: configuration lookup returns the value bound to a present key and
fails with the key-missing `ValueError` when the key is absent; no other
validation is performed. -/
theorem spec_C8_config_lookup (config_json : List (String × GValue)) (key : String) :
    (∀ v, config_json.lookup key = some v →
      load_config config_json key = .ok v) ∧
    (config_json.lookup key = none →
      load_config config_json key = .error (.configKeyMissing key)) := by
  constructor
  · intro v hv; simp [load_config, hv]
  · intro hn; simp [load_config, hn]

/-- Witness for C8 on a one-key configuration, present and absent. -/
theorem spec_C8_config_lookup_witness :
    load_config [("api_key", .str "k")] "api_key" = .ok (.str "k") ∧
    load_config [("api_key", .str "k")] "token"
        = .error (.configKeyMissing "token") :=
  ⟨(spec_C8_config_lookup [("api_key", .str "k")] "api_key").1
      (.str "k") (by decide),
   (spec_C8_config_lookup [("api_key", .str "k")] "token").2 (by decide)⟩

/-- C9: for every per-metric method, an empty JSON array from the shared
routine makes the method raise the `KeyError` from the timestamp-column
lookup on the empty table, rather than return an empty table with the
documented column names. -/
theorem spec_C9_empty_response (sym fd td itv : String) (status : Nat)
    (h400 : status ≠ 400) (h404 : status ≠ 404) :
    (sym ∈ supported_type → itv ∈ supported_interval →
      (get_close_price sym fd td itv ⟨status, []⟩).result
          = .error (.keyError "t")) ∧
    (sym ∈ supported_type → itv ∈ pySlice supported_interval 0 3 →
      (get_ohlc sym fd td itv ⟨status, []⟩).result
          = .error (.keyError "t") ∧
      (get_exchange_netflow sym fd td itv ⟨status, []⟩).result
          = .error (.keyError "t")) ∧
    (sym ∈ ["BTC", "ETH"] → itv ∈ pySlice supported_interval 0 3 →
      (get_issuance sym fd td itv ⟨status, []⟩).result
          = .error (.keyError "t") ∧
      (get_inflation_rate sym fd td itv ⟨status, []⟩).result
          = .error (.keyError "t")) ∧
    (sym ∈ ["BTC", "LTC"] → itv ∈ pySlice supported_interval 0 2 →
      (get_puell_multiple sym fd td itv ⟨status, []⟩).result
          = .error (.keyError "t")) ∧
    (sym ∈ ["BTC", "ETH", "LTC"] → itv ∈ supported_interval →
      (get_total_fees sym fd td itv ⟨status, []⟩).result
          = .error (.keyError "t")) := by
  have hc : classifyResponse ⟨status, []⟩ = .ok [] := by
    simp [classifyResponse, h400, h404]
  refine ⟨fun hs hi => ?_, fun hs hi => ⟨?_, ?_⟩, fun hs hi => ⟨?_, ?_⟩,
    fun hs hi => ?_, fun hs hi => ?_⟩
  · rw [get_close_price_valid sym fd td itv _ hs hi, hc]; rfl
  · rw [get_ohlc_valid sym fd td itv _ hs hi, hc]; rfl
  · rw [get_exchange_netflow_valid sym fd td itv _ hs hi, hc]; rfl
  · rw [get_issuance_valid sym fd td itv _ hs hi, hc]; rfl
  · rw [get_inflation_rate_valid sym fd td itv _ hs hi, hc]; rfl
  · rw [get_puell_multiple_valid sym fd td itv _ hs hi, hc]; rfl
  · rw [get_total_fees_valid sym fd td itv _ hs hi, hc]; rfl

/-- Witness for C9 at `get_close_price` and `get_ohlc` on an empty body. -/
theorem spec_C9_empty_response_witness :
    (get_close_price "BTC" "" "" "" ⟨200, []⟩).result
        = .error (.keyError "t") ∧
    (get_ohlc "BTC" "" "" "" ⟨200, []⟩).result
        = .error (.keyError "t") :=
  ⟨(spec_C9_empty_response "BTC" "" "" "" 200 (by decide) (by decide)).1
      (by decide) (by decide),
   ((spec_C9_empty_response "BTC" "" "" "" 200 (by decide) (by decide)).2.1
      (by decide) (by decide)).1⟩

/-- The raw OHLC response of C2: one point whose nested `o` object
enumerates its keys in the order `c, h, l, o`. -/
def c2response : List GRecord :=
  [[("t", .num 1577836800),
    ("o", .obj [("c", 719636/100), ("h", 725433/100),
                ("l", 717494/100), ("o", 719522/100)])]]

/-- C2: on the raw response
`[{"t": 1577836800, "o": {"c": 7196.36, "h": 7254.33, "l": 7174.94, "o": 7195.22}}]`
`get_ohlc` produces exactly one row whose columns, in order, are
`datetime = 2020-01-01T00:00:00Z, open = 7195.22, high = 7254.33,
low = 7174.94, close = 7196.36`. -/
theorem spec_C2_ohlc_row (sym fd td itv : String) (status : Nat)
    (hs : sym ∈ supported_type) (hi : itv ∈ pySlice supported_interval 0 3)
    (h400 : status ≠ 400) (h404 : status ≠ 404) :
    (get_ohlc sym fd td itv ⟨status, c2response⟩).result
      = .ok ⟨[("datetime", [some (.dt ⟨2020, 1, 1, 0, 0, 0⟩)]),
              ("open", [some (.num (719522/100))]),
              ("high", [some (.num (725433/100))]),
              ("low", [some (.num (717494/100))]),
              ("close", [some (.num (719636/100))])]⟩ := by
  have hc : classifyResponse ⟨status, c2response⟩ = .ok c2response := by
    simp [classifyResponse, h400, h404]
  rw [get_ohlc_valid sym fd td itv _ hs hi, hc]
  rfl

/-- Witness for C2 at symbol `BTC`, interval `''`, status 200. -/
theorem spec_C2_ohlc_row_witness :
    (get_ohlc "BTC" "" "" "" ⟨200, c2response⟩).result
      = .ok ⟨[("datetime", [some (.dt ⟨2020, 1, 1, 0, 0, 0⟩)]),
              ("open", [some (.num (719522/100))]),
              ("high", [some (.num (725433/100))]),
              ("low", [some (.num (717494/100))]),
              ("close", [some (.num (719636/100))])]⟩ :=
  spec_C2_ohlc_row "BTC" "" "" "" 200 (by decide) (by decide)
    (by decide) (by decide)

/-- C3: on the raw response `[{"t": 1577836800, "v": 7196.36}]`
`get_close_price` produces exactly one row, the columns named and ordered
`datetime = 2020-01-01T00:00:00Z, close_price = 7196.36`. -/
theorem spec_C3_close_price_row (sym fd td itv : String) (status : Nat)
    (hs : sym ∈ supported_type) (hi : itv ∈ supported_interval)
    (h400 : status ≠ 400) (h404 : status ≠ 404) :
    (get_close_price sym fd td itv
        ⟨status, [[("t", .num 1577836800), ("v", .num (719636/100))]]⟩).result
      = .ok ⟨[("datetime", [some (.dt ⟨2020, 1, 1, 0, 0, 0⟩)]),
              ("close_price", [some (.num (719636/100))])]⟩ := by
  have hc : classifyResponse
      ⟨status, [[("t", .num 1577836800), ("v", .num (719636/100))]]⟩
      = .ok [[("t", .num 1577836800), ("v", .num (719636/100))]] := by
    simp [classifyResponse, h400, h404]
  rw [get_close_price_valid sym fd td itv _ hs hi, hc]
  rfl

/-- Witness for C3 at symbol `BTC`, interval `''`, status 200. -/
theorem spec_C3_close_price_row_witness :
    (get_close_price "BTC" "" "" ""
        ⟨200, [[("t", .num 1577836800), ("v", .num (719636/100))]]⟩).result
      = .ok ⟨[("datetime", [some (.dt ⟨2020, 1, 1, 0, 0, 0⟩)]),
              ("close_price", [some (.num (719636/100))])]⟩ :=
  spec_C3_close_price_row "BTC" "" "" "" 200 (by decide) (by decide)
    (by decide) (by decide)

/-- An OHLC point whose `o` object enumerates its keys in the order
`c, h, l, o`, with distinguishable values. -/
def ohlcOrderedPoint : GRecord :=
  [("t", .num 1577836800), ("o", .obj [("c", 1), ("h", 2), ("l", 3), ("o", 4)])]

/-- A second OHLC point whose `o` object enumerates its keys in the
reversed order `o, l, h, c`. -/
def ohlcReversedPoint : GRecord :=
  [("t", .num 1577923200), ("o", .obj [("o", 8), ("l", 7), ("h", 6), ("c", 5)])]

/-- An OHLC point whose `o` object enumerates its keys in the order
`o, h, l, c`, i.e. a FIRST point out of the standard order. -/
def ohlcSwappedPoint : GRecord :=
  [("t", .num 1577836800), ("o", .obj [("o", 4), ("h", 2), ("l", 3), ("c", 1)])]

/-- C10 counterexample: an input whose second point's `o` object enumerates
its keys in the order `o, l, h, c` — so NOT every point enumerates
`c, h, l, o` — still yields correctly labelled output (rows are aligned to
columns by key; only the first point's key order fixes the column order),
refuting "correct labels only when every `o` object enumerates its keys in
the order c, h, l, o". -/
theorem spec_C10_counterexample_second_point :
    ohlcReversedPoint.lookup "o"
        = some (.obj [("o", 8), ("l", 7), ("h", 6), ("c", 5)]) ∧
    (get_ohlc "BTC" "" "" ""
        ⟨200, [ohlcOrderedPoint, ohlcReversedPoint]⟩).result
      = .ok ⟨[("datetime", [some (.dt ⟨2020, 1, 1, 0, 0, 0⟩),
                            some (.dt ⟨2020, 1, 2, 0, 0, 0⟩)]),
              ("open", [some (.num 4), some (.num 8)]),
              ("high", [some (.num 2), some (.num 6)]),
              ("low", [some (.num 3), some (.num 7)]),
              ("close", [some (.num 1), some (.num 5)])]⟩ :=
  ⟨rfl, rfl⟩

/-- C10 (amended): `get_ohlc` assigns output column names positionally, in
the key order of the FIRST point's nested `o` object: with the first
point's keys in the order `o, h, l, c` the output's `open` column holds the
`c` value and its `close` column holds the `o` value (wrong labels), while
the standard first-point order `c, h, l, o` yields correct labels. -/
theorem spec_C10_positional_labels :
    ohlcSwappedPoint.lookup "o"
        = some (.obj [("o", 4), ("h", 2), ("l", 3), ("c", 1)]) ∧
    (get_ohlc "BTC" "" "" "" ⟨200, [ohlcSwappedPoint]⟩).result
      = .ok ⟨[("datetime", [some (.dt ⟨2020, 1, 1, 0, 0, 0⟩)]),
              ("open", [some (.num 1)]),
              ("high", [some (.num 2)]),
              ("low", [some (.num 3)]),
              ("close", [some (.num 4)])]⟩ ∧
    (get_ohlc "BTC" "" "" "" ⟨200, [ohlcOrderedPoint]⟩).result
      = .ok ⟨[("datetime", [some (.dt ⟨2020, 1, 1, 0, 0, 0⟩)]),
              ("open", [some (.num 4)]),
              ("high", [some (.num 2)]),
              ("low", [some (.num 3)]),
              ("close", [some (.num 1)])]⟩ :=
  ⟨rfl, rfl, rfl⟩
